import Mathlib

/-!
Verification of the plan/act/observe orchestration loop of the HRMS
"HR Buddy" chat service.

The development shallowly embeds the orchestration core:

* `process_query` (src/hr_buddy/chatbot.py, lines 708-836): the bounded
  plan/action/observe/output loop, including its parameter-resolution
  convention (lines 751-781), its unknown-tool path (815-819), its
  parse-failure path (726-736) and its outer exception handler (830-832).
* `SimplifiedHRClient._make_request` (src/hr_buddy/hr_api_client.py,
  lines 57-152): the backend gateway that normalizes HTTP results into a
  success/data or failure/message envelope.

Conventions of the embedding:

* JSON values are modelled by the inductive `Json`; Python dicts are
  key/value lists in insertion order.  Dicts produced by `json.loads`
  have pairwise-distinct keys (later duplicate keys overwrite earlier
  ones in CPython), so dict lookup is first-match lookup.
* `json.loads` is Python standard library code, external to the
  repository; it is passed in as a parameter
  `loads : String → Option Json` (`none` models `json.JSONDecodeError`).
* Python exceptions are modelled by `PyExc`, carrying `str(e)` and a
  flag telling whether the exception is a `json.JSONDecodeError`
  (the orchestrator has a catch discriminating exactly that subclass).
* The language model and the HR tools are external collaborators: a
  model turn is a `Reply` (raw reply string, or an exception raised by
  the OpenAI call), and tool execution is a parameter
  `invoke : String → Args → ToolResult`.
-/

/-- JSON values, as produced by `json.loads`.  Objects keep insertion
order; numbers are modelled as integers (no claim depends on floats). -/
inductive Json where
  | null
  | bool (b : Bool)
  | num (n : Int)
  | str (s : String)
  | arr (xs : List Json)
  | obj (kvs : List (String × Json))

/-- A Python exception: `str(e)` plus whether it is a
`json.JSONDecodeError` (the only subclass the loop discriminates). -/
structure PyExc where
  jsonDecode : Bool
  msg : String

/-- Python truthiness (`if tool_input:`) on JSON-shaped values. -/
def truthy : Json → Bool
  | Json.null => false
  | Json.bool b => b
  | Json.num n => n != 0
  | Json.str s => s != ""
  | Json.arr xs => !xs.isEmpty
  | Json.obj kvs => !kvs.isEmpty

/-- Python `len` on JSON-shaped values; `None`, booleans and numbers
have no `len()` and raise `TypeError`. -/
def pyLen : Json → Except PyExc Nat
  | Json.str s => Except.ok s.length
  | Json.arr xs => Except.ok xs.length
  | Json.obj kvs => Except.ok kvs.length
  | Json.null => Except.error ⟨false, "object of type \x27NoneType\x27 has no len()"⟩
  | Json.bool _ => Except.error ⟨false, "object of type \x27bool\x27 has no len()"⟩
  | Json.num _ => Except.error ⟨false, "object of type \x27int\x27 has no len()"⟩

/-- Python `str()` of a JSON-shaped value, as used in f-strings.  The
container cases never reach an f-string in the embedded code paths
(unhashable values raise beforehand), so their text is a placeholder. -/
def pyStr : Json → String
  | Json.null => "None"
  | Json.bool true => "True"
  | Json.bool false => "False"
  | Json.num n => toString n
  | Json.str s => s
  | Json.arr _ => "<list>"
  | Json.obj _ => "<dict>"

/-- `str()` of `dict.get`-style results (`None` when the key is absent). -/
def pyStrOpt : Option Json → String
  | none => "None"
  | some j => pyStr j

/-- Python dict lookup on an insertion-ordered key/value list.
`json.loads` guarantees pairwise-distinct keys. -/
def lookupJ (k : String) : List (String × Json) → Option Json
  | [] => none
  | (k2, v) :: rest => if k2 == k then some v else lookupJ k rest

/-- `parsed.get(key)` once `parsed` is known to be a dict. -/
def jget (j : Json) (k : String) : Option Json :=
  match j with
  | Json.obj kvs => lookupJ k kvs
  | _ => none

/-- Python `step == "plan"`: comparison of an arbitrary value with a
string literal is `True` exactly for the equal string. -/
def stepIs (step : Option Json) (name : String) : Bool :=
  match step with
  | some (Json.str s) => s == name
  | _ => false

/-- Whether a value is a JSON/Python string. -/
def Json.isStr : Json → Bool
  | Json.str _ => true
  | _ => false

/-- Python `tool_input.startswith` with the one-character opening-brace
pattern (chatbot.py line 761): true iff the first character is `\x7b`. -/
def startsBrace (s : String) : Bool :=
  match s.data with
  | [] => false
  | c :: _ => c == '\x7b'

/-- The call shapes the orchestrator can use when invoking a tool
(chatbot.py lines 758-781): no arguments, one positional, two
positionals, or keyword expansion `tool_func(**params)`. -/
inductive Args where
  | noArgs
  | pos1 (a : Json)
  | pos2 (a b : Json)
  | kwargs (kvs : List (String × Json))

/-- Result of one tool invocation by the environment: a returned value,
or a raised Python exception. -/
inductive ToolResult where
  | ok (out : Json)
  | exn (e : PyExc)

/-- One call of `tool_func(...)`, in the exception monad. -/
def callTool (invoke : String → Args → ToolResult) (n : String) (a : Args) :
    Except PyExc Json :=
  match invoke n a with
  | ToolResult.ok o => Except.ok o
  | ToolResult.exn e => Except.error e

/-- chatbot.py lines 762-772: dispatch on `len(params)` after a
successful `json.loads(tool_input)`.  A string starting with `\x7b` can
only parse to a dict, but since `loads` is a parameter the non-dict
cases are kept: on them `len`/`.values()`/`**` raise (`TypeError` or
`AttributeError`), which the surrounding `except Exception` turns into
an observation. -/
def dispatchParsed (invoke : String → Args → ToolResult) (n : String) (p : Json) :
    Except PyExc Json :=
  match p with
  | Json.obj [] => callTool invoke n (Args.kwargs [])
  | Json.obj [(_, v1)] => callTool invoke n (Args.pos1 v1)
  | Json.obj [(_, v1), (_, v2)] => callTool invoke n (Args.pos2 v1 v2)
  | Json.obj kvs => callTool invoke n (Args.kwargs kvs)
  | _ => Except.error ⟨false, "TypeError: params is not a dict"⟩

/-- chatbot.py lines 757-781: the parameter-resolution block.

```
if tool_input:
    try:
        if isinstance(tool_input, str) and tool_input.startswith('\x7b'):
            params = json.loads(tool_input)
            ... 1 / 2 / ** dispatch ...
        else:
            output = tool_func(tool_input)
    except json.JSONDecodeError:
        output = tool_func(tool_input)
else:
    output = tool_func()
```

The `except json.JSONDecodeError` handler re-invokes the tool with the
raw input as a single positional argument; exceptions raised by that
fallback call, and non-`JSONDecodeError` exceptions from the `try`
block, propagate to the caller (the per-action `except Exception`). -/
def runToolWithInput (loads : String → Option Json)
    (invoke : String → Args → ToolResult) (n : String) (ti : Option Json) :
    Except PyExc Json :=
  match ti with
  | none => callTool invoke n Args.noArgs
  | some v =>
    if truthy v then
      let attempt : Except PyExc Json :=
        match v with
        | Json.str s =>
          if startsBrace s then
            match loads s with
            | none => Except.error ⟨true, "Expecting value"⟩
            | some p => dispatchParsed invoke n p
          else callTool invoke n (Args.pos1 v)
        | _ => callTool invoke n (Args.pos1 v)
      match attempt with
      | Except.error e =>
        if e.jsonDecode then callTool invoke n (Args.pos1 v)
        else Except.error e
      | Except.ok o => Except.ok o
    else callTool invoke n Args.noArgs

/-- Roles of conversation messages. -/
inductive Role where
  | system
  | user
  | assistant
deriving DecidableEq

/-- One message of the conversation transcript.  The Python code stores
`content` as a string; observation messages are `json.dumps` of a small
JSON object, modelled here by storing the JSON object itself (the
serialization is injective and no claim inspects the serialized text). -/
structure Msg where
  role : Role
  content : Json

/-- One model turn as seen by the loop: the raw reply string of the
OpenAI call, or an exception raised by the call (timeout, transport
error, ...). -/
inductive Reply where
  | content (raw : String)
  | exn (e : PyExc)

/-- The keys of `available_tools` (chatbot.py lines 461-533), in
insertion order. -/
def toolNames : List String :=
  ["get_attendance_overview", "get_attendance_records", "get_employee_attendance",
   "get_task_reports_overview", "get_task_reports", "get_employee_task_reports",
   "get_all_employees", "get_user_profile", "get_today_date", "get_yesterday_date"]

/-- chatbot.py line 736. -/
def invalidFormatMsg : String :=
  "I received an invalid response format. Please try rephrasing your question."

/-- chatbot.py line 822 (default of `parsed_response.get("content", ...)`). -/
def defaultOutputMsg : String :=
  "I couldn\x27t process your request properly."

/-- chatbot.py line 828. -/
def unknownStepMsg : String :=
  "I encountered an unknown processing step. Please try rephrasing your question."

/-- chatbot.py line 832: the outer `except Exception` return value,
with `str(e)` interpolated. -/
def processingErrMsg (e : String) : String :=
  "I encountered an error while processing your request: " ++ e ++
    ". Please try a different approach."

/-- chatbot.py line 836. -/
def maxIterMsg : String :=
  "I reached the maximum processing iterations without completing your request. Please try a simpler request."

/-- chatbot.py lines 816-818: the observation synthesized for an action
directive whose function is not a key of `available_tools`.  The dict
literal has no `tool_name` entry in this branch. -/
def unknownToolObs (fn : Option Json) : Json :=
  Json.obj [("step", Json.str "observe"),
            ("error", Json.str ("Tool \x27" ++ pyStrOpt fn ++
              "\x27 not available. Available tools: " ++
              String.intercalate ", " toolNames))]

/-- chatbot.py lines 804-813: the observation synthesized when tool
execution raised (`Tool execution failed for <name>: <str(e)>`). -/
def toolFailObs (n : String) (emsg : String) : Json :=
  Json.obj [("step", Json.str "observe"),
            ("error", Json.str ("Tool execution failed for " ++ n ++ ": " ++ emsg)),
            ("tool_name", Json.str n)]

/-- chatbot.py line 787:
`output.get("user_message", output.get("error", "Unknown error occurred"))`. -/
def failureMessage (kvs : List (String × Json)) : Json :=
  match lookupJ "user_message" kvs with
  | some v => v
  | none =>
    match lookupJ "error" kvs with
    | some v => v
    | none => Json.str "Unknown error occurred"

/-- chatbot.py lines 786-800: turn a returned tool output into the
observation appended to the transcript.  A dict with falsy
`.get("success", True)` is a failure; otherwise the
`formatted_response` entry is preferred over the raw output. -/
def handleToolOutput (n : String) (out : Json) : Json :=
  match out with
  | Json.obj kvs =>
    if truthy ((lookupJ "success" kvs).getD (Json.bool true)) then
      match lookupJ "formatted_response" kvs with
      | some v => Json.obj [("step", Json.str "observe"), ("output", v),
                            ("tool_name", Json.str n)]
      | none => Json.obj [("step", Json.str "observe"), ("output", out),
                          ("tool_name", Json.str n)]
    else
      Json.obj [("step", Json.str "observe"), ("error", failureMessage kvs),
                ("tool_name", Json.str n)]
  | _ => Json.obj [("step", Json.str "observe"), ("output", out),
                   ("tool_name", Json.str n)]

/-- chatbot.py lines 748-814: the known-tool action path.  Resolves the
parameters, invokes the tool, and appends one observation message —
both on a returned output and on a raised exception (`except Exception`
at line 803).  Always continues the loop (`none`). -/
def execKnownTool (loads : String → Option Json)
    (invoke : String → Args → ToolResult) (n : String) (ti : Option Json)
    (msgs : List Msg) : List Msg × Option Json :=
  match runToolWithInput loads invoke n ti with
  | Except.ok out => (msgs ++ [⟨Role.user, handleToolOutput n out⟩], none)
  | Except.error e => (msgs ++ [⟨Role.user, toolFailObs n e.msg⟩], none)

/-- chatbot.py lines 744-819: the `step == "action"` branch.  A dict or
list `function` value raises `TypeError: unhashable type` at the
`tool_name in available_tools` test, which only the outer
`except Exception` catches (terminal return); any other value that is
not a registered tool name takes the unknown-tool path. -/
def handleAction (loads : String → Option Json)
    (invoke : String → Args → ToolResult) (kvs : List (String × Json))
    (msgs : List Msg) : List Msg × Option Json :=
  match lookupJ "function" kvs with
  | some (Json.obj _) =>
    (msgs, some (Json.str (processingErrMsg "unhashable type: \x27dict\x27")))
  | some (Json.arr _) =>
    (msgs, some (Json.str (processingErrMsg "unhashable type: \x27list\x27")))
  | some (Json.str n) =>
    if n ∈ toolNames then execKnownTool loads invoke n (lookupJ "input" kvs) msgs
    else (msgs ++ [⟨Role.user, unknownToolObs (some (Json.str n))⟩], none)
  | some Json.null =>
    (msgs ++ [⟨Role.user, unknownToolObs (some Json.null)⟩], none)
  | some (Json.bool b) =>
    (msgs ++ [⟨Role.user, unknownToolObs (some (Json.bool b))⟩], none)
  | some (Json.num m) =>
    (msgs ++ [⟨Role.user, unknownToolObs (some (Json.num m))⟩], none)
  | none => (msgs ++ [⟨Role.user, unknownToolObs none⟩], none)

/-- chatbot.py lines 821-824: the `step == "output"` branch.  The
terminal value is `parsed_response.get("content", <default>)`; before
returning it, `len(final_content)` is evaluated in a log line, which
raises `TypeError` on `None`/bool/number content (caught by the outer
`except Exception`).  A non-string sized content (list/dict) is
returned as-is. -/
def handleOutput (kvs : List (String × Json)) (msgs : List Msg) :
    List Msg × Option Json :=
  match lookupJ "content" kvs with
  | none => (msgs, some (Json.str defaultOutputMsg))
  | some c =>
    match pyLen c with
    | Except.ok _ => (msgs, some c)
    | Except.error e => (msgs, some (Json.str (processingErrMsg e.msg)))

/-- chatbot.py lines 733-828: branch on the parsed reply.  A non-dict
parse result raises `AttributeError` at `parsed_response.get(...)`,
caught by the outer `except Exception` (terminal return). -/
def handleParsed (loads : String → Option Json)
    (invoke : String → Args → ToolResult) (parsed : Json) (msgs : List Msg) :
    List Msg × Option Json :=
  match parsed with
  | Json.obj kvs =>
    let step := lookupJ "step" kvs
    if stepIs step "plan" then (msgs, none)
    else if stepIs step "action" then handleAction loads invoke kvs msgs
    else if stepIs step "output" then handleOutput kvs msgs
    else (msgs, some (Json.str unknownStepMsg))
  | _ =>
    (msgs, some (Json.str (processingErrMsg
      "\x27object\x27 has no attribute \x27get\x27")))

/-- One iteration of the `while` loop of `process_query` (chatbot.py
lines 714-832).  Returns the transcript after the iteration, and
`some r` when the iteration returns `r` from `process_query` (`none`
means `continue`).  An exception raised by the OpenAI call is caught by
the outer `except Exception` before anything is appended; otherwise the
raw reply is appended as an assistant message before the parse is
attempted, and a parse failure returns immediately. -/
def runIteration (loads : String → Option Json)
    (invoke : String → Args → ToolResult) (reply : Reply) (msgs : List Msg) :
    List Msg × Option Json :=
  match reply with
  | Reply.exn e => (msgs, some (Json.str (processingErrMsg e.msg)))
  | Reply.content raw =>
    let msgs1 := msgs ++ [⟨Role.assistant, Json.str raw⟩]
    match loads raw with
    | none => (msgs1, some (Json.str invalidFormatMsg))
    | some parsed => handleParsed loads invoke parsed msgs1

/-- chatbot.py lines 711-836: the `while iteration_count < max_iterations`
loop, by recursion on the remaining iteration budget.  `iter` counts the
completed iterations (the model reply of iteration `k` is `replies k`,
zero-based); the third component of the result is the total number of
iterations executed. -/
def processLoop (loads : String → Option Json)
    (invoke : String → Args → ToolResult) (replies : Nat → Reply) :
    List Msg → Nat → Nat → List Msg × Json × Nat
  | msgs, iter, 0 => (msgs, Json.str maxIterMsg, iter)
  | msgs, iter, fuel + 1 =>
    match runIteration loads invoke (replies iter) msgs with
    | (msgs2, some r) => (msgs2, r, iter + 1)
    | (msgs2, none) => processLoop loads invoke replies msgs2 (iter + 1) fuel

/-- `process_query` (chatbot.py lines 708-836) with `max_iterations = 10`.
Returns the final transcript, the terminal value returned to the caller,
and the number of loop iterations executed. -/
def process_query (loads : String → Option Json)
    (invoke : String → Args → ToolResult) (replies : Nat → Reply)
    (msgs : List Msg) : List Msg × Json × Nat :=
  processLoop loads invoke replies msgs 0 10

/-- The environment of one `_make_request` call: an HTTP response with a
status code and a JSON body (`none` when `response.json()` raises), or
an exception raised by `requests` (hr_api_client.py lines 57-152). -/
inductive HttpOutcome where
  | resp (status : Nat) (body : Option Json)
  | timeout
  | connError
  | exc (msg : String)

/-- `SimplifiedHRClient._make_request` (hr_api_client.py lines 57-152):
normalizes an HTTP outcome into the uniform success/failure dict.  The
`retry_on_failure` decorator only retries raised exceptions, and
`_make_request` converts every exception into a returned dict, so the
decorator has no effect here.  `raise_for_status` raises `HTTPError`
for the remaining 4xx/5xx statuses, which the final `except Exception`
turns into the `unexpected_error` envelope; the 400 branch falls back
to its bare `except:` when the body is not a dict (the
`error_detail.get` raises) or not JSON. -/
def make_request (o : HttpOutcome) : Json :=
  match o with
  | HttpOutcome.resp status body =>
    if status = 401 then
      Json.obj [("success", Json.bool false),
                ("message", Json.str "Authentication required or token expired"),
                ("status_code", Json.num 401),
                ("error_type", Json.str "authentication_error")]
    else if status = 403 then
      Json.obj [("success", Json.bool false),
                ("message", Json.str "Insufficient permissions to access this resource"),
                ("status_code", Json.num 403),
                ("error_type", Json.str "permission_error")]
    else if status = 404 then
      Json.obj [("success", Json.bool false),
                ("message", Json.str "Resource not found or endpoint does not exist"),
                ("status_code", Json.num 404),
                ("error_type", Json.str "not_found_error")]
    else if status = 400 then
      match body with
      | some (Json.obj kvs) =>
        Json.obj [("success", Json.bool false),
                  ("message", Json.str ("Bad request: " ++
                    pyStrOpt (some ((lookupJ "message" kvs).getD
                      (Json.str "Invalid request parameters"))))),
                  ("status_code", Json.num 400),
                  ("error_type", Json.str "validation_error"),
                  ("details", Json.obj kvs)]
      | _ =>
        Json.obj [("success", Json.bool false),
                  ("message", Json.str "Bad request: Invalid request parameters or format"),
                  ("status_code", Json.num 400),
                  ("error_type", Json.str "validation_error")]
    else if 400 ≤ status ∧ status < 600 then
      Json.obj [("success", Json.bool false),
                ("message", Json.str ("Unexpected error: " ++ toString status ++
                  " Error for url")),
                ("error_type", Json.str "unexpected_error")]
    else
      match body with
      | some result =>
        Json.obj [("success", Json.bool true), ("data", result),
                  ("status_code", Json.num (Int.ofNat status))]
      | none =>
        Json.obj [("success", Json.bool false),
                  ("message", Json.str "Invalid JSON response from server"),
                  ("error_type", Json.str "json_decode_error")]
  | HttpOutcome.timeout =>
    Json.obj [("success", Json.bool false),
              ("message", Json.str "Request timed out. The server might be busy, please try again."),
              ("error_type", Json.str "timeout_error")]
  | HttpOutcome.connError =>
    Json.obj [("success", Json.bool false),
              ("message", Json.str "Unable to connect to the server. Please check your internet connection."),
              ("error_type", Json.str "connection_error")]
  | HttpOutcome.exc m =>
    Json.obj [("success", Json.bool false),
              ("message", Json.str ("Unexpected error: " ++ m)),
              ("error_type", Json.str "unexpected_error")]

/-- The closed error taxonomy of §4.4 of the specification. -/
def errorKinds : List String :=
  ["authentication_error", "permission_error", "validation_error",
   "not_found_error", "timeout_error", "connection_error",
   "json_decode_error", "unexpected_error"]

/-- The envelope-duality property of an outcome dict: `success=true`
comes with a `data` entry and neither `message` nor `error_type`;
`success=false` comes with a string `message`, no `data`, and an
`error_type` drawn from `errorKinds`. -/
def envelopeDual (r : Json) : Bool :=
  match jget r "success" with
  | some (Json.bool true) =>
    (jget r "data").isSome && (jget r "message").isNone &&
      (jget r "error_type").isNone
  | some (Json.bool false) =>
    (match jget r "message" with
     | some (Json.str _) => true
     | _ => false) &&
    (jget r "data").isNone &&
    (match jget r "error_type" with
     | some (Json.str k) => errorKinds.contains k
     | _ => false)
  | _ => false

/-- Injective encoding of a call shape as a JSON value, used with
`recInvoke` to observe which arguments a tool was invoked with. -/
def encodeArgs : Args → Json
  | Args.noArgs => Json.arr [Json.str "call0"]
  | Args.pos1 a => Json.arr [Json.str "call1", a]
  | Args.pos2 a b => Json.arr [Json.str "call2", a, b]
  | Args.kwargs kvs => Json.arr [Json.str "callkw", Json.obj kvs]

/-- A recording tool environment: every invocation returns the encoded
call shape, so the value produced by the resolution block identifies
the arguments the tool was called with. -/
def recInvoke : String → Args → ToolResult :=
  fun _ a => ToolResult.ok (encodeArgs a)

/-- Whether `pat` matches `s` at its head. -/
def headMatches : List Char → List Char → Bool
  | [], _ => true
  | _ :: _, [] => false
  | a :: as, b :: bs => a == b && headMatches as bs

/-- Whether `pat` occurs somewhere in `s`. -/
def listContainsSub (pat : List Char) : List Char → Bool
  | [] => headMatches pat []
  | c :: rest => headMatches pat (c :: rest) || listContainsSub pat rest

/-- Substring occurrence on strings. -/
def containsSub (s pat : String) : Bool :=
  listContainsSub pat.data s.data

/-- The unrecognized-`step` fallback of the sibling variant
(src/hr buddy/chatbot.py lines 695-698): return the directive content
when present, else a generic message naming the step. -/
def fallback_space (kvs : List (String × Json)) (step : Option Json) : Json :=
  (lookupJ "content" kvs).getD
    (Json.str ("I encountered an unknown processing step: " ++ pyStrOpt step))

/-- The loop executes at most `iter + fuel` iterations in total. -/
theorem processLoop_count_le (loads : String → Option Json)
    (invoke : String → Args → ToolResult) (replies : Nat → Reply) :
    ∀ fuel iter msgs,
      (processLoop loads invoke replies msgs iter fuel).2.2 ≤ iter + fuel := by
  intro fuel
  induction fuel with
  | zero => intro iter msgs; simp [processLoop]
  | succ f ih =>
    intro iter msgs
    rcases hr : runIteration loads invoke (replies iter) msgs with ⟨m2, r⟩
    cases r with
    | some v =>
      simp only [processLoop, hr]
      omega
    | none =>
      simp only [processLoop, hr]
      have := ih (iter + 1) m2
      omega

/-- If every in-budget iteration continues, the loop exhausts the budget
and returns the max-iterations message. -/
theorem processLoop_all_cont (loads : String → Option Json)
    (invoke : String → Args → ToolResult) (replies : Nat → Reply) :
    ∀ fuel iter msgs,
      (∀ i m, i < iter + fuel → (runIteration loads invoke (replies i) m).2 = none) →
      ∃ mm, processLoop loads invoke replies msgs iter fuel =
        (mm, Json.str maxIterMsg, iter + fuel) := by
  intro fuel
  induction fuel with
  | zero => intro iter msgs _; exact ⟨msgs, by simp [processLoop]⟩
  | succ f ih =>
    intro iter msgs h
    rcases hr : runIteration loads invoke (replies iter) msgs with ⟨m2, r⟩
    have h2 : r = none := by
      have := h iter msgs (by omega)
      rw [hr] at this
      exact this
    subst h2
    rcases ih (iter + 1) m2 (fun i m hi => h i m (by omega)) with ⟨mm, hm⟩
    refine ⟨mm, ?_⟩
    simp only [processLoop, hr, hm]
    congr 2
    omega

/-- A constantly-raising tool makes the resolution block end in a raised
exception, whichever path the input takes. -/
theorem runToolWithInput_raise (loads : String → Option Json) (n : String)
    (ti : Option Json) (e : PyExc) :
    ∃ e2 : PyExc,
      runToolWithInput loads (fun _ _ => ToolResult.exn e) n ti = Except.error e2 := by
  unfold runToolWithInput callTool
  cases ti with
  | none => exact ⟨e, rfl⟩
  | some v =>
    by_cases hv : truthy v
    · simp only [hv, if_true]
      cases v with
      | str s =>
        by_cases hb : startsBrace s
        · simp only [hb, if_true]
          cases hl : loads s with
          | none =>
            by_cases hj : e.jsonDecode <;> simp [hj]
          | some p =>
            unfold dispatchParsed callTool
            cases p with
            | obj kvs =>
              match kvs with
              | [] => by_cases hj : e.jsonDecode <;> simp [hj]
              | [(k1, v1)] => by_cases hj : e.jsonDecode <;> simp [hj]
              | [(k1, v1), (k2, v2)] =>
                by_cases hj : e.jsonDecode <;> simp [hj]
              | (k1, v1) :: (k2, v2) :: (k3, v3) :: rest =>
                by_cases hj : e.jsonDecode <;> simp [hj]
            | null => exact ⟨⟨false, "TypeError: params is not a dict"⟩, rfl⟩
            | bool b => exact ⟨⟨false, "TypeError: params is not a dict"⟩, rfl⟩
            | num m => exact ⟨⟨false, "TypeError: params is not a dict"⟩, rfl⟩
            | str s2 => exact ⟨⟨false, "TypeError: params is not a dict"⟩, rfl⟩
            | arr xs => exact ⟨⟨false, "TypeError: params is not a dict"⟩, rfl⟩
        · simp only [hb, if_false]
          by_cases hj : e.jsonDecode <;> simp [hj]
      | null => simp [truthy] at hv
      | bool b =>
        by_cases hj : e.jsonDecode <;> simp [hj]
      | num m =>
        by_cases hj : e.jsonDecode <;> simp [hj]
      | arr xs =>
        by_cases hj : e.jsonDecode <;> simp [hj]
      | obj kvs =>
        by_cases hj : e.jsonDecode <;> simp [hj]
    · simp only [hv, if_false]
      exact ⟨e, rfl⟩

/-- A `json.loads` oracle that fails on every input (no claim using it
ever parses a tool-input string). -/
def loads0 : String → Option Json := fun _ => none

/-- A tool environment whose every invocation returns `None`. -/
def invoke0 : String → Args → ToolResult := fun _ _ => ToolResult.ok Json.null

/-- A model reply that is a bare `plan` directive. -/
def planRaw : String := "\x7b\"step\": \"plan\", \"thinking\": \"t\"\x7d"

/-- `json.loads` on `planRaw`. -/
def loadsP : String → Option Json := fun s =>
  if s = planRaw then
    some (Json.obj [("step", Json.str "plan"), ("thinking", Json.str "t")])
  else none

/-- A model reply that is an `output` directive whose `content` is the
JSON array `["x"]` rather than a string. -/
def rawOutArr : String := "\x7b\"step\": \"output\", \"content\": [\"x\"]\x7d"

/-- `json.loads` on `rawOutArr`. -/
def loadsC1 : String → Option Json := fun s =>
  if s = rawOutArr then
    some (Json.obj [("step", Json.str "output"), ("content", Json.arr [Json.str "x"])])
  else none

/-- Claim C1, as stated, is false in one respect: `process_query` does
terminate, but it does not always return a *string*.  On the reply
`\x7b"step": "output", "content": ["x"]\x7d` the code returns the parsed
JSON array `["x"]` itself (chatbot.py line 824 returns
`parsed_response.get("content", ...)` unchanged), after one iteration. -/
theorem claim_C1_counterexample :
    process_query loadsC1 invoke0 (fun _ => Reply.content rawOutArr) [] =
      ([⟨Role.assistant, Json.str rawOutArr⟩], Json.arr [Json.str "x"], 1) ∧
    (Json.arr [Json.str "x"]).isStr = false :=
  ⟨rfl, rfl⟩

/-- Claim C1 (amended): for every sequence of model replies,
`process_query` terminates after at most 10 loop iterations, returning
a terminal value (a string except when an `output` directive carries a
non-string `content`, which is returned as-is); and whenever no
iteration returns earlier — e.g. ten consecutive `plan` directives —
it returns the specific max-iterations message after the 10th
iteration rather than looping further. -/
theorem claim_C1_amended (loads : String → Option Json)
    (invoke : String → Args → ToolResult) (replies : Nat → Reply)
    (msgs : List Msg) :
    (process_query loads invoke replies msgs).2.2 ≤ 10 ∧
    ((∀ i m, i < 10 → (runIteration loads invoke (replies i) m).2 = none) →
      ∃ mm, process_query loads invoke replies msgs = (mm, Json.str maxIterMsg, 10)) := by
  constructor
  · have h := processLoop_count_le loads invoke replies 10 0 msgs
    simpa [process_query] using h
  · intro h
    have h2 := processLoop_all_cont loads invoke replies 10 0 msgs
      (by simpa using h)
    simpa [process_query] using h2

/-- Witness for C1: ten consecutive `plan` directives hit the iteration
cap and produce the max-iterations message. -/
theorem claim_C1_witness :
    (∀ i m, i < 10 →
      (runIteration loadsP invoke0 ((fun _ => Reply.content planRaw) i) m).2 = none) ∧
    (process_query loadsP invoke0 (fun _ => Reply.content planRaw) []).2.2 ≤ 10 ∧
    (∃ mm, process_query loadsP invoke0 (fun _ => Reply.content planRaw) [] =
      (mm, Json.str maxIterMsg, 10)) :=
  ⟨fun _ _ _ => rfl,
   (claim_C1_amended loadsP invoke0 (fun _ => Reply.content planRaw) []).1,
   (claim_C1_amended loadsP invoke0 (fun _ => Reply.content planRaw) []).2
     (fun _ _ _ => rfl)⟩

/-- Claim C2: exceptions never escape `process_query`.  An exception
raised by the model call is caught by the outer `except Exception` and
converted to a terminal string; and for an action on a registered tool,
whatever the parameter input, a tool environment that raises on every
invocation still yields a continuing iteration whose only effect is one
appended `Tool execution failed ...` observation. -/
theorem claim_C2 (loads : String → Option Json) (msgs : List Msg) (e : PyExc)
    (raw : String) (kvs : List (String × Json)) (n : String) :
    (∀ invoke, runIteration loads invoke (Reply.exn e) msgs =
      (msgs, some (Json.str (processingErrMsg e.msg)))) ∧
    (loads raw = some (Json.obj kvs) →
     lookupJ "step" kvs = some (Json.str "action") →
     lookupJ "function" kvs = some (Json.str n) →
     n ∈ toolNames →
     ∃ emsg, runIteration loads (fun _ _ => ToolResult.exn e) (Reply.content raw) msgs =
       (msgs ++ [⟨Role.assistant, Json.str raw⟩, ⟨Role.user, toolFailObs n emsg⟩],
        none)) := by
  constructor
  · intro invoke; rfl
  · intro h1 h2 h3 h4
    rcases runToolWithInput_raise loads n (lookupJ "input" kvs) e with ⟨e2, he⟩
    refine ⟨e2.msg, ?_⟩
    simp only [runIteration, h1, handleParsed, h2, stepIs, beq_iff_eq]
    simp only [reduceCtorEq, if_false, reduceIte]
    simp only [handleAction, h3, if_pos h4, execKnownTool, he, List.append_assoc,
      List.cons_append, List.nil_append]
    rw [if_neg (by decide : ¬("action" = "plan"))]

/-- The action directive used by the C2 witness. -/
def kvsC2 : List (String × Json) :=
  [("step", Json.str "action"), ("function", Json.str "get_today_date")]

/-- Its raw model reply. -/
def rawC2 : String := "\x7b\"step\": \"action\", \"function\": \"get_today_date\"\x7d"

/-- `json.loads` on `rawC2`. -/
def loadsC2 : String → Option Json := fun s =>
  if s = rawC2 then some (Json.obj kvsC2) else none

/-- Witness for C2: an action on `get_today_date` whose invocation
raises `boom` leads to one appended failure observation and a
continuing loop. -/
theorem claim_C2_witness :
    (loadsC2 rawC2 = some (Json.obj kvsC2)) ∧
    (lookupJ "step" kvsC2 = some (Json.str "action")) ∧
    (lookupJ "function" kvsC2 = some (Json.str "get_today_date")) ∧
    ("get_today_date" ∈ toolNames) ∧
    (∃ emsg, runIteration loadsC2 (fun _ _ => ToolResult.exn ⟨false, "boom"⟩)
        (Reply.content rawC2) [] =
      ([] ++ [⟨Role.assistant, Json.str rawC2⟩,
        ⟨Role.user, toolFailObs "get_today_date" emsg⟩], none)) :=
  ⟨rfl, rfl, rfl, by decide,
   (claim_C2 loadsC2 [] ⟨false, "boom"⟩ rawC2 kvsC2 "get_today_date").2
     rfl rfl rfl (by decide)⟩

/-- A string whose first character is the opening brace is nonempty,
hence truthy. -/
theorem startsBrace_truthy (s : String) (h : startsBrace s = true) :
    truthy (Json.str s) = true := by
  have hne : s ≠ "" := by
    intro he
    subst he
    simp [startsBrace] at h
  simp [truthy, bne_iff_ne, hne]

/-- Claim C3, as stated, is false for actual JSON mappings: when the
model supplies `"input": \x7b"date": "2025-01-01"\x7d` as a real JSON
object, `json.loads` of the whole reply makes `tool_input` a Python
dict, the `isinstance(tool_input, str)` test fails, and the dict is
passed whole as one positional argument — not its value. -/
theorem claim_C3_counterexample :
    runToolWithInput loads0 recInvoke "get_attendance_overview"
        (some (Json.obj [("date", Json.str "2025-01-01")])) =
      Except.ok (encodeArgs (Args.pos1 (Json.obj [("date", Json.str "2025-01-01")]))) ∧
    encodeArgs (Args.pos1 (Json.obj [("date", Json.str "2025-01-01")])) ≠
      encodeArgs (Args.pos1 (Json.str "2025-01-01")) :=
  ⟨rfl, by simp [encodeArgs]⟩

/-- Claim C3 (amended): absent input invokes the tool with no
arguments; a truthy non-string value — including an actual JSON
mapping — is passed whole as the single positional argument; a truthy
string not starting with `\x7b` is passed as the single positional
argument; and only for a *string-encoded* mapping (a string starting
with `\x7b`) does the key-count convention apply: parse failure falls
back to the single positional string, one key passes the value
positionally, two keys pass both values positionally in insertion
order, any other key count expands the mapping as named arguments. -/
theorem claim_C3_amended (loads : String → Option Json) (n : String) (v : Json)
    (s : String) (kvs : List (String × Json)) (k1 k2 : String) (v1 v2 : Json) :
    (runToolWithInput loads recInvoke n none = Except.ok (encodeArgs Args.noArgs)) ∧
    (truthy v = true → v.isStr = false →
      runToolWithInput loads recInvoke n (some v) =
        Except.ok (encodeArgs (Args.pos1 v))) ∧
    (truthy (Json.str s) = true → startsBrace s = false →
      runToolWithInput loads recInvoke n (some (Json.str s)) =
        Except.ok (encodeArgs (Args.pos1 (Json.str s)))) ∧
    (startsBrace s = true → loads s = none →
      runToolWithInput loads recInvoke n (some (Json.str s)) =
        Except.ok (encodeArgs (Args.pos1 (Json.str s)))) ∧
    (startsBrace s = true → loads s = some (Json.obj [(k1, v1)]) →
      runToolWithInput loads recInvoke n (some (Json.str s)) =
        Except.ok (encodeArgs (Args.pos1 v1))) ∧
    (startsBrace s = true → loads s = some (Json.obj [(k1, v1), (k2, v2)]) →
      runToolWithInput loads recInvoke n (some (Json.str s)) =
        Except.ok (encodeArgs (Args.pos2 v1 v2))) ∧
    (startsBrace s = true → loads s = some (Json.obj kvs) →
      kvs.length ≠ 1 → kvs.length ≠ 2 →
      runToolWithInput loads recInvoke n (some (Json.str s)) =
        Except.ok (encodeArgs (Args.kwargs kvs))) := by
  refine ⟨rfl, ?_, ?_, ?_, ?_, ?_, ?_⟩
  · intro ht hstr
    cases v <;> simp_all [runToolWithInput, callTool, recInvoke, Json.isStr]
  · intro ht hb
    simp [runToolWithInput, ht, hb, callTool, recInvoke]
  · intro hb hl
    simp [runToolWithInput, startsBrace_truthy s hb, hb, hl, callTool, recInvoke]
  · intro hb hl
    simp [runToolWithInput, startsBrace_truthy s hb, hb, hl, dispatchParsed,
      callTool, recInvoke]
  · intro hb hl
    simp [runToolWithInput, startsBrace_truthy s hb, hb, hl, dispatchParsed,
      callTool, recInvoke]
  · intro hb hl h1 h2
    have ht := startsBrace_truthy s hb
    rcases kvs with _ | ⟨⟨ka, va⟩, _ | ⟨⟨kb, vb⟩, _ | ⟨⟨kc, vc⟩, rest⟩⟩⟩
    · simp [runToolWithInput, ht, hb, hl, dispatchParsed, callTool, recInvoke]
    · simp at h1
    · simp at h2
    · simp [runToolWithInput, ht, hb, hl, dispatchParsed, callTool, recInvoke]

/-- The string-encoded one-key mapping used in the C3 witness. -/
def rawIn1 : String := "\x7b\"date\": \"2025-01-01\"\x7d"

/-- `json.loads` on `rawIn1`. -/
def loadsC3 : String → Option Json := fun s =>
  if s = rawIn1 then some (Json.obj [("date", Json.str "2025-01-01")]) else none

/-- Witness for the amended C3: a string-encoded one-key mapping passes
its value as the single positional argument. -/
theorem claim_C3_witness :
    (startsBrace rawIn1 = true) ∧
    (loadsC3 rawIn1 = some (Json.obj [("date", Json.str "2025-01-01")])) ∧
    (runToolWithInput loadsC3 recInvoke "get_attendance_overview"
        (some (Json.str rawIn1)) =
      Except.ok (encodeArgs (Args.pos1 (Json.str "2025-01-01")))) :=
  ⟨rfl, rfl,
   (claim_C3_amended loadsC3 "get_attendance_overview" Json.null rawIn1 []
     "date" "d2" (Json.str "2025-01-01") Json.null).2.2.2.2.1 rfl rfl⟩

/-- Claim C4: an action directive naming a function that is not a key
of `available_tools` does not terminate the conversation — the
iteration appends exactly one observation (after the assistant reply),
whose error text names the failing tool and lists all valid tool
names, and the loop continues. -/
theorem claim_C4 (loads : String → Option Json)
    (invoke : String → Args → ToolResult) (msgs : List Msg) (raw : String)
    (kvs : List (String × Json)) (n : String) :
    loads raw = some (Json.obj kvs) →
    lookupJ "step" kvs = some (Json.str "action") →
    lookupJ "function" kvs = some (Json.str n) →
    n ∉ toolNames →
    runIteration loads invoke (Reply.content raw) msgs =
      (msgs ++ [⟨Role.assistant, Json.str raw⟩,
                ⟨Role.user, unknownToolObs (some (Json.str n))⟩], none) ∧
    unknownToolObs (some (Json.str n)) =
      Json.obj [("step", Json.str "observe"),
                ("error", Json.str ("Tool \x27" ++ n ++
                  "\x27 not available. Available tools: " ++
                  String.intercalate ", " toolNames))] := by
  intro h1 h2 h3 h4
  constructor
  · simp only [runIteration, h1, handleParsed, h2, stepIs, beq_iff_eq]
    simp only [reduceCtorEq, if_false, reduceIte]
    simp only [handleAction, h3, if_neg h4, List.append_assoc, List.cons_append,
      List.nil_append]
    rw [if_neg (by decide : ¬("action" = "plan"))]
  · rfl

/-- The unknown-tool directive used by the C4 witness. -/
def kvsC4 : List (String × Json) :=
  [("step", Json.str "action"), ("function", Json.str "bogus_tool"),
   ("input", Json.null)]

/-- Its raw model reply. -/
def rawC4 : String :=
  "\x7b\"step\": \"action\", \"function\": \"bogus_tool\", \"input\": null\x7d"

/-- `json.loads` on `rawC4`. -/
def loadsC4 : String → Option Json := fun s =>
  if s = rawC4 then some (Json.obj kvsC4) else none

/-- Witness for C4: the directive naming `bogus_tool` yields one
observation listing the ten registered tools and a continuing loop. -/
theorem claim_C4_witness :
    (loadsC4 rawC4 = some (Json.obj kvsC4)) ∧
    (lookupJ "step" kvsC4 = some (Json.str "action")) ∧
    (lookupJ "function" kvsC4 = some (Json.str "bogus_tool")) ∧
    ("bogus_tool" ∉ toolNames) ∧
    (runIteration loadsC4 invoke0 (Reply.content rawC4) [] =
      ([] ++ [⟨Role.assistant, Json.str rawC4⟩,
              ⟨Role.user, unknownToolObs (some (Json.str "bogus_tool"))⟩], none) ∧
     unknownToolObs (some (Json.str "bogus_tool")) =
       Json.obj [("step", Json.str "observe"),
                 ("error", Json.str ("Tool \x27" ++ "bogus_tool" ++
                   "\x27 not available. Available tools: " ++
                   String.intercalate ", " toolNames))]) :=
  ⟨rfl, rfl, rfl, by decide,
   claim_C4 loadsC4 invoke0 [] rawC4 kvsC4 "bogus_tool" rfl rfl rfl (by decide)⟩

/-- The action directive used by the C5 failing input: an attendance
overview request with `input: null`; on failure the formatting wrapper
`format_attendance_response` returns the `_make_request` envelope
unchanged, so the tool output seen by the loop is that envelope. -/
def kvsC5 : List (String × Json) :=
  [("step", Json.str "action"), ("function", Json.str "get_attendance_overview"),
   ("input", Json.null)]

/-- Its raw model reply. -/
def rawC5 : String :=
  "\x7b\"step\": \"action\", \"function\": \"get_attendance_overview\", \"input\": null\x7d"

/-- `json.loads` on `rawC5`. -/
def loadsC5 : String → Option Json := fun s =>
  if s = rawC5 then some (Json.obj kvsC5) else none

/-- Claim C5 is right about the intended contract but the code breaks
it: `_make_request` failure envelopes carry their user-facing text
under the key `message`, while the orchestrator reads
`output.get("user_message", output.get("error", "Unknown error
occurred"))` (chatbot.py line 787).  A backend-classified failure
(here: a timeout on `get_attendance_overview`) therefore produces an
observation whose error text is the placeholder
`Unknown error occurred`, not the envelope's pre-supplied message. -/
theorem claim_C5_code_bug :
    jget (make_request HttpOutcome.timeout) "message" =
      some (Json.str "Request timed out. The server might be busy, please try again.") ∧
    jget (make_request HttpOutcome.timeout) "error_type" =
      some (Json.str "timeout_error") ∧
    runIteration loadsC5 (fun _ _ => ToolResult.ok (make_request HttpOutcome.timeout))
        (Reply.content rawC5) [] =
      ([⟨Role.assistant, Json.str rawC5⟩,
        ⟨Role.user, Json.obj [("step", Json.str "observe"),
                              ("error", Json.str "Unknown error occurred"),
                              ("tool_name", Json.str "get_attendance_overview")]⟩], none) :=
  ⟨rfl, rfl, rfl⟩

/-- Claim C6: a model reply that is not valid JSON terminates the loop
in that same iteration (iteration count 1, no retry), returning the
"invalid response format" message, and the raw reply has already been
appended to the transcript as an assistant message. -/
theorem claim_C6 (loads : String → Option Json)
    (invoke : String → Args → ToolResult) (replies : Nat → Reply)
    (msgs : List Msg) (raw : String) :
    replies 0 = Reply.content raw →
    loads raw = none →
    process_query loads invoke replies msgs =
      (msgs ++ [⟨Role.assistant, Json.str raw⟩], Json.str invalidFormatMsg, 1) := by
  intro h0 hl
  have hi : runIteration loads invoke (replies 0) msgs =
      (msgs ++ [⟨Role.assistant, Json.str raw⟩], some (Json.str invalidFormatMsg)) := by
    rw [h0]
    simp [runIteration, hl]
  simp [process_query, processLoop, hi]

/-- A raw reply that is not valid JSON. -/
def rawC6 : String := "I will now call the attendance tool."

/-- Witness for C6 (the `loads0` oracle fails on every string, matching
`json.loads` on this non-JSON reply). -/
theorem claim_C6_witness :
    ((fun _ : Nat => Reply.content rawC6) 0 = Reply.content rawC6) ∧
    (loads0 rawC6 = none) ∧
    process_query loads0 invoke0 (fun _ => Reply.content rawC6) [] =
      ([] ++ [⟨Role.assistant, Json.str rawC6⟩], Json.str invalidFormatMsg, 1) :=
  ⟨rfl, rfl, claim_C6 loads0 invoke0 (fun _ => Reply.content rawC6) [] rawC6 rfl rfl⟩

/-- Claim C7: every `_make_request` envelope satisfies the duality —
`success=true` comes with `data` and neither `message` nor
`error_type`; `success=false` comes with a string `message`, no
`data`, and an `error_type` from the closed eight-kind enumeration. -/
theorem claim_C7 (o : HttpOutcome) : envelopeDual (make_request o) = true := by
  cases o with
  | timeout => rfl
  | connError => rfl
  | exc m => rfl
  | resp status body =>
    simp only [make_request]
    by_cases h1 : status = 401
    · rw [if_pos h1]; rfl
    rw [if_neg h1]
    by_cases h2 : status = 403
    · rw [if_pos h2]; rfl
    rw [if_neg h2]
    by_cases h3 : status = 404
    · rw [if_pos h3]; rfl
    rw [if_neg h3]
    by_cases h4 : status = 400
    · rw [if_pos h4]
      cases body with
      | none => rfl
      | some b => cases b <;> rfl
    rw [if_neg h4]
    by_cases h5 : 400 ≤ status ∧ status < 600
    · rw [if_pos h5]; rfl
    rw [if_neg h5]
    cases body with
    | none => rfl
    | some b => rfl

/-- Witness for C7 at a concrete outcome (no hypotheses to discharge;
provided for a concrete evaluation of the envelope). -/
theorem claim_C7_witness :
    envelopeDual (make_request (HttpOutcome.resp 200 (some (Json.str "ok")))) = true :=
  claim_C7 (HttpOutcome.resp 200 (some (Json.str "ok")))

/-- An unrecognized-step directive carrying a content field. -/
def kvs8 : List (String × Json) :=
  [("step", Json.str "observe"), ("content", Json.str "hello")]

/-- Its raw model reply. -/
def raw8 : String := "\x7b\"step\": \"observe\", \"content\": \"hello\"\x7d"

/-- `json.loads` on `raw8`. -/
def loads8 : String → Option Json := fun s =>
  if s = raw8 then some (Json.obj kvs8) else none

/-- Claim C8, as stated, is false for the cited hr_buddy loop: on a
directive with the unrecognized step `observe` and the present content
`hello`, chatbot.py lines 826-828 return the fixed generic unknown-step
message, not the directive content. -/
theorem claim_C8_counterexample :
    runIteration loads8 invoke0 (Reply.content raw8) [] =
      ([⟨Role.assistant, Json.str raw8⟩], some (Json.str unknownStepMsg)) ∧
    unknownStepMsg ≠ "hello" :=
  ⟨rfl, by decide⟩

/-- Claim C8 (amended): in src/hr_buddy/chatbot.py an unrecognized step
value terminates the loop but always returns the fixed generic
unknown-step message, ignoring any `content`; the content-if-present /
generic-otherwise fallback appears only in the "src/hr buddy" variant
(its lines 695-698, embedded as `fallback_space`). -/
theorem claim_C8_amended (loads : String → Option Json)
    (invoke : String → Args → ToolResult) (msgs : List Msg) (raw : String)
    (kvs : List (String × Json)) :
    (loads raw = some (Json.obj kvs) →
     stepIs (lookupJ "step" kvs) "plan" = false →
     stepIs (lookupJ "step" kvs) "action" = false →
     stepIs (lookupJ "step" kvs) "output" = false →
     runIteration loads invoke (Reply.content raw) msgs =
       (msgs ++ [⟨Role.assistant, Json.str raw⟩], some (Json.str unknownStepMsg))) ∧
    (∀ (kvs2 : List (String × Json)) (st : Option Json) (c : Json),
      lookupJ "content" kvs2 = some c → fallback_space kvs2 st = c) ∧
    (∀ (kvs2 : List (String × Json)) (st : Option Json),
      lookupJ "content" kvs2 = none →
      fallback_space kvs2 st =
        Json.str ("I encountered an unknown processing step: " ++ pyStrOpt st)) := by
  refine ⟨?_, ?_, ?_⟩
  · intro h1 hp ha ho
    simp [runIteration, h1, handleParsed, hp, ha, ho]
  · intro kvs2 st c hc
    simp [fallback_space, hc]
  · intro kvs2 st hc
    simp [fallback_space, hc]

/-- Witness for the amended C8: the `observe`-step directive of the
counterexample input indeed yields the fixed unknown-step message, and
`fallback_space` on the same directive returns its content. -/
theorem claim_C8_witness :
    (loads8 raw8 = some (Json.obj kvs8)) ∧
    (stepIs (lookupJ "step" kvs8) "plan" = false) ∧
    (stepIs (lookupJ "step" kvs8) "action" = false) ∧
    (stepIs (lookupJ "step" kvs8) "output" = false) ∧
    (lookupJ "content" kvs8 = some (Json.str "hello")) ∧
    (runIteration loads8 invoke0 (Reply.content raw8) [] =
      ([] ++ [⟨Role.assistant, Json.str raw8⟩], some (Json.str unknownStepMsg))) ∧
    (fallback_space kvs8 (lookupJ "step" kvs8) = Json.str "hello") :=
  ⟨rfl, rfl, rfl, rfl, rfl,
   (claim_C8_amended loads8 invoke0 [] raw8 kvs8).1 rfl rfl rfl rfl,
   (claim_C8_amended loads8 invoke0 [] raw8 kvs8).2.1 kvs8
     (lookupJ "step" kvs8) (Json.str "hello") rfl⟩

/-- Claim C9, as stated, is false: when the model call raises an
exception whose text is `XERRX`, the loop's terminal string (chatbot.py
line 832) embeds that raw exception text verbatim. -/
theorem claim_C9_counterexample :
    process_query loads0 invoke0 (fun _ => Reply.exn ⟨false, "XERRX"⟩) [] =
      ([], Json.str ("I encountered an error while processing your request: " ++
        "XERRX" ++ ". Please try a different approach."), 1) ∧
    containsSub ("I encountered an error while processing your request: " ++
      "XERRX" ++ ". Please try a different approach.") "XERRX" = true :=
  ⟨rfl, by decide⟩

/-- Claim C9 (amended): user-visible failure strings are natural-
language templates and never stack traces; the parse-failure and
iteration-cap returns are fixed constants independent of the raw reply
and of any exception, but the model-call/processing failure return
embeds the exception's `str(e)` inside its fixed template. -/
theorem claim_C9_amended (loads : String → Option Json)
    (invoke : String → Args → ToolResult) (replies : Nat → Reply)
    (msgs : List Msg) (e : PyExc) (raw : String) :
    (runIteration loads invoke (Reply.exn e) msgs =
      (msgs, some (Json.str ("I encountered an error while processing your request: "
        ++ e.msg ++ ". Please try a different approach.")))) ∧
    (loads raw = none →
      runIteration loads invoke (Reply.content raw) msgs =
        (msgs ++ [⟨Role.assistant, Json.str raw⟩], some (Json.str invalidFormatMsg))) ∧
    ((∀ i m, i < 10 → (runIteration loads invoke (replies i) m).2 = none) →
      ∃ mm, process_query loads invoke replies msgs = (mm, Json.str maxIterMsg, 10)) := by
  refine ⟨rfl, ?_, ?_⟩
  · intro hl
    simp [runIteration, hl]
  · intro h
    have h2 := processLoop_all_cont loads invoke replies 10 0 msgs (by simpa using h)
    simpa [process_query] using h2

/-- Witness for the amended C9: a concrete parse failure returns the
fixed invalid-format constant, and ten plan directives return the fixed
max-iterations constant. -/
theorem claim_C9_witness :
    (loadsP rawC6 = none) ∧
    (runIteration loadsP invoke0 (Reply.content rawC6) [] =
      ([] ++ [⟨Role.assistant, Json.str rawC6⟩], some (Json.str invalidFormatMsg))) ∧
    (∃ mm, process_query loadsP invoke0 (fun _ => Reply.content planRaw) [] =
      (mm, Json.str maxIterMsg, 10)) :=
  ⟨rfl,
   (claim_C9_amended loadsP invoke0 (fun _ => Reply.content planRaw) []
     ⟨false, "boom"⟩ rawC6).2.1 rfl,
   (claim_C9_amended loadsP invoke0 (fun _ => Reply.content planRaw) []
     ⟨false, "boom"⟩ rawC6).2.2 (fun _ _ _ => rfl)⟩

/-- Claim C10: every falsy input value — `null`, the empty string, the
empty mapping, `0`, `false` — makes `if tool_input:` take the
no-parameters branch, so the tool is invoked with zero arguments,
exactly as when the input is absent; in particular an explicit
empty-string scalar is not passed as a positional argument. -/
theorem claim_C10 (loads : String → Option Json) (n : String)
    (invoke : String → Args → ToolResult) :
    (runToolWithInput loads recInvoke n (some Json.null) =
      Except.ok (encodeArgs Args.noArgs)) ∧
    (runToolWithInput loads recInvoke n (some (Json.str "")) =
      Except.ok (encodeArgs Args.noArgs)) ∧
    (runToolWithInput loads recInvoke n (some (Json.obj [])) =
      Except.ok (encodeArgs Args.noArgs)) ∧
    (runToolWithInput loads recInvoke n (some (Json.num 0)) =
      Except.ok (encodeArgs Args.noArgs)) ∧
    (runToolWithInput loads recInvoke n (some (Json.bool false)) =
      Except.ok (encodeArgs Args.noArgs)) ∧
    (runToolWithInput loads recInvoke n none =
      Except.ok (encodeArgs Args.noArgs)) ∧
    (runToolWithInput loads invoke n (some Json.null) =
      runToolWithInput loads invoke n none) ∧
    (runToolWithInput loads invoke n (some (Json.str "")) =
      runToolWithInput loads invoke n none) ∧
    (runToolWithInput loads invoke n (some (Json.obj [])) =
      runToolWithInput loads invoke n none) ∧
    (runToolWithInput loads invoke n (some (Json.num 0)) =
      runToolWithInput loads invoke n none) ∧
    (runToolWithInput loads invoke n (some (Json.bool false)) =
      runToolWithInput loads invoke n none) :=
  ⟨rfl, rfl, rfl, rfl, rfl, rfl, rfl, rfl, rfl, rfl, rfl⟩
